import Mathlib

/-!
Shallow embedding of `switcher.py`, a single-file X11 desktop-switching
utility, together with proofs about its window-listing parser
(`get_windows`), its index builder (`get_window_info`), its polling window
locator (`get_identifier`), its stale-window cleanup (`close_windows`) and
its orchestrator (`switch_desktop`).

Python strings are modelled as `List Char`.  Python floats (only used for
the locator timeout) are modelled by their exact rational values, with
binary64 round-to-nearest-even (`roundDouble`) applied where the program's
float arithmetic is inexact — the `0.01` interval constant and the division
of line 52; the clamp's comparisons and its constants 0.5 and 60.0 are
exact in binary64, so the clamp stays rational.  Python dicts (only used
with `.update` of a single binding and `.get`) are modelled as association
lists where an update appends and a lookup takes the last matching binding.
External `wmctrl` invocations are modelled by oracles: the textual window
listing an invocation would print, and the success of each side-effecting
invocation.
-/

namespace Switcher

/-- Python strings, modelled as lists of characters. -/
abbrev Str := List Char

/-- Auxiliary worker for `splitWS`: `acc` holds the characters of the token
currently being read, in reverse order. -/
def splitWSAux : List Char → List Char → List (List Char)
  | [], acc => if acc = [] then [] else [acc.reverse]
  | c :: cs, acc =>
    if c.isWhitespace then
      (if acc = [] then [] else [acc.reverse]) ++ splitWSAux cs []
    else splitWSAux cs (c :: acc)

/-- Python `str.split()` with no argument: split on runs of whitespace,
producing no empty tokens. -/
def splitWS (cs : Str) : List Str := splitWSAux cs []

/-- Drop leading whitespace characters. -/
def dropWS : Str → Str
  | [] => []
  | c :: cs => if c.isWhitespace then dropWS cs else c :: cs

/-- Python `str.strip()` with no argument: drop leading and trailing
whitespace. -/
def strip (cs : Str) : Str := ((dropWS cs).reverse |> dropWS).reverse

/-- Auxiliary worker for `splitLines`. -/
def splitLinesAux : List Char → List Char → List (List Char)
  | [], acc => [acc.reverse]
  | c :: cs, acc =>
    if c = '\n' then acc.reverse :: splitLinesAux cs []
    else splitLinesAux cs (c :: acc)

/-- Python `str.split("\n")`: split on newline characters, keeping empty
pieces. -/
def splitLines (cs : Str) : List Str := splitLinesAux cs []

/-- Python `" ".join(tokens)`. -/
def joinSpace : List Str → Str
  | [] => []
  | [t] => t
  | t :: ts => t ++ ' ' :: joinSpace ts

/-- Auxiliary worker for `pyInt`: reads a non-empty run of decimal digits. -/
def parseDigitsAux : List Char → Nat → Option Nat
  | [], acc => some acc
  | c :: cs, acc =>
    if c.isDigit then parseDigitsAux cs (acc * 10 + (c.toNat - 48)) else none

/-- Decimal digits to a natural number; `none` on an empty string or a
non-digit character. -/
def parseDigits : Str → Option Nat
  | [] => none
  | c :: cs => parseDigitsAux (c :: cs) 0

/-- Python `int(token)` on a whitespace-free token: an optional sign followed
by at least one decimal digit; raises `ValueError` (here: `none`) otherwise. -/
def pyInt : Str → Option Int
  | '-' :: cs => (parseDigits cs).map (fun n => -(n : Int))
  | '+' :: cs => (parseDigits cs).map (fun n => (n : Int))
  | cs => (parseDigits cs).map (fun n => (n : Int))

/-- The record built for one window by `get_windows` (switcher.py lines
95-102).  The dict keys `id`, `desktop`, `pid`, `class`, `hostname`, `title`
become fields; `class` is a Lean keyword, so it is called `windowClass`
here. -/
structure WindowRecord where
  id : Str
  desktop : Int
  pid : Int
  windowClass : Str
  hostname : Str
  title : Str
deriving DecidableEq, Repr

/-- The body of the per-line loop in `get_windows` (switcher.py lines 80-91,
94-102), without the desktop filter: the line is whitespace-split; fields 0-4
are id, desktop, pid, class, hostname, with desktop and pid parsed as
integers.  An `IndexError` (fewer than five fields) or `ValueError`
(non-numeric desktop or pid) skips the line (`none`).  Line 101 of the source
stores `window_id` under the `title` key; the joined title computed at line
89 is discarded (see `joined_title`). -/
def parse_line (line : Str) : Option WindowRecord :=
  match splitWS (strip line) with
  | wid :: d :: p :: cls :: host :: _rest =>
    match pyInt d, pyInt p with
    | some desktop, some pid =>
      some { id := wid, desktop := desktop, pid := pid, windowClass := cls,
             hostname := host, title := wid }
    | _, _ => none
  | _ => none

/-- The value `window_title` as computed at line 89 of the source
(`" ".join(splitted_line[5:])`), which line 101 then fails to use. -/
def joined_title (line : Str) : Str := joinSpace ((splitWS (strip line)).drop 5)

/-- The function `get_windows(desktop)` (switcher.py lines 72-104), with the captured
stdout of `wmctrl -l -x -p` passed in as `output`: strip the output, split it
into lines, parse each line, and keep the records whose desktop equals the
requested one. -/
def get_windows (output : Str) (desktop : Int) : List WindowRecord :=
  ((splitLines (strip output)).filterMap parse_line).filter
    (fun w => decide (w.desktop = desktop))

/-- A Python dict built only by `d.update({k: v})`, modelled as the list of
update operations in order. -/
abbrev Dict (α β : Type) := List (α × β)

/-- Python dict update `d.update({k: v})`. -/
def dset {α β : Type} (m : Dict α β) (k : α) (v : β) : Dict α β := m ++ [(k, v)]

/-- Python dict lookup `d.get(k, None)`: the value of the last update with key `k`, if any. -/
def dget {α β : Type} [DecidableEq α] (m : Dict α β) (k : α) : Option β :=
  (m.reverse.find? (fun q => decide (q.1 = k))).map Prod.snd

/-- The index-building loop of `get_window_info` (switcher.py lines 107-125)
over an already-obtained window list: one dict from pid to id and one from
class to id, updated in list order.  (The source's `None` checks on the dict
fields are vacuous here: every `WindowRecord` has all fields.) -/
def build_index (windows : List WindowRecord) : Dict Int Str × Dict Str Str :=
  windows.foldl
    (fun acc w => (dset acc.1 w.pid w.id, dset acc.2 w.windowClass w.id))
    ([], [])

/-- The function `get_window_info(desktop)` (switcher.py lines 107-125): build the two
lookup dicts from the windows of the given desktop. -/
def get_window_info (output : Str) (desktop : Int) : Dict Int Str × Dict Str Str :=
  build_index (get_windows output desktop)

/-- The two exceptions `get_identifier` can raise: `TypeError` when neither
window PID nor class is given (line 43), `RuntimeError` when the timeout is
reached (line 67). -/
inductive LocateError
  | badArguments
  | timeout
deriving DecidableEq, Repr

/-- Python truthiness of the `window_id` variable in `get_identifier`:
`None` and the empty string are falsy. -/
def truthy : Option Str → Bool
  | none => false
  | some s => !s.isEmpty

/-- The timeout clamp of `get_identifier` (switcher.py lines 47-50):
values below 0.5 become 0.5, values above 60.0 become 60.0.  The program
works on binary64 doubles here, but comparisons of doubles are exact and
0.5 and 60.0 are exactly representable, so on double inputs this rational
clamp coincides with the program's. -/
def clamp_timeout (t : ℚ) : ℚ :=
  if t < 0.5 then 0.5 else if t > 60.0 then 60.0 else t

/-- Python `int()` on a rational: truncation toward zero. -/
def pyTrunc (q : ℚ) : Int := if q < 0 then -(Int.floor (-q)) else Int.floor q

/-- Rounding of a rational to the nearest integer, ties to even — the IEEE
round-to-nearest-even rule at integer granularity. -/
def rne (q : ℚ) : Int :=
  if q - ⌊q⌋ < 1/2 then ⌊q⌋
  else if 1/2 < q - ⌊q⌋ then ⌊q⌋ + 1
  else if ⌊q⌋ % 2 = 0 then ⌊q⌋ else ⌊q⌋ + 1

/-- Fuel-bounded search for the smallest `k` with `2^52 ≤ q * 2^k`
(`k = 0` when `q` is already at least `2^52`). -/
def scaleUp : Nat → ℚ → Nat
  | 0, _ => 0
  | fuel + 1, q => if 2 ^ 52 ≤ q then 0 else scaleUp fuel (q * 2) + 1

/-- Fuel-bounded search for the smallest `j` with `q / 2^j < 2^53`. -/
def scaleDown : Nat → ℚ → Nat
  | 0, _ => 0
  | fuel + 1, q => if q < 2 ^ 53 then 0 else scaleDown fuel (q / 2) + 1

/-- IEEE binary64 rounding of a positive rational: scale by a power of two
into the binade `[2^52, 2^53)`, where the representable doubles are exactly
the integers, round to nearest with ties to even, and scale back. -/
def roundPos (q : ℚ) : ℚ :=
  if 2 ^ 53 ≤ q then
    (rne (q / 2 ^ scaleDown 1200 q) : ℚ) * 2 ^ scaleDown 1200 q
  else
    (rne (q * 2 ^ scaleUp 1200 q) : ℚ) / 2 ^ scaleUp 1200 q

/-- The value of a rational rounded to the nearest binary64 double
(round-to-nearest-even), with an unbounded exponent range: no overflow,
underflow or subnormal granularity is modelled, which is faithful for every
value this program computes (all lie well inside the normal range). -/
def roundDouble (q : ℚ) : ℚ :=
  if q = 0 then 0 else if q < 0 then -roundPos (-q) else roundPos q

/-- The polling `interval = 0.01` of switcher.py line 45 as the double it
is: the binary64 value nearest 1/100. -/
def float0_01 : ℚ := roundDouble (1 / 100)

/-- IEEE binary64 division: the exact quotient, correctly rounded. -/
def fdiv (a b : ℚ) : ℚ := roundDouble (a / b)

/-- The count `timeout_count` (switcher.py line 52) after the clamp:
`int(timeout / interval) + 1`, computed as the program computes it, in
binary64 arithmetic — `interval` is the double nearest 0.01 and the
division is correctly rounded — so the count can differ from the exact
`⌊timeout / 0.01⌋ + 1` (e.g. at timeout 0.57). -/
def timeout_count (t : ℚ) : Nat :=
  (pyTrunc (fdiv (clamp_timeout t) float0_01)).toNat + 1

/-- One iteration of the polling loop body (switcher.py lines 56-60): look the
PID up first; if the result is falsy, fall back to the class.  A `None`
argument is looked up like any absent key (`dict.get(None)` is `None` for an
int- or string-keyed dict). -/
def lookup_window (info : Dict Int Str × Dict Str Str)
    (window_pid : Option Int) (window_class : Option Str) : Option Str :=
  let wid := window_pid.bind (fun p => dget info.1 p)
  if truthy wid then wid else window_class.bind (fun c => dget info.2 c)

/-- The polling loop of `get_identifier` (switcher.py lines 54-67): `i` is
the current iteration index, `fuel` the number of iterations left; `feed i`
is the `wmctrl -l -x -p` output the query at iteration `i` would capture.
Exhausting the loop raises `RuntimeError` (the `for ... else` clause). -/
def poll (feed : Nat → Str) (desktop : Int)
    (window_pid : Option Int) (window_class : Option Str) :
    Nat → Nat → Except LocateError Str
  | _, 0 => .error .timeout
  | i, fuel + 1 =>
    match lookup_window (get_window_info (feed i) desktop) window_pid window_class with
    | some s =>
      if s.isEmpty then poll feed desktop window_pid window_class (i + 1) fuel
      else .ok s
    | none => poll feed desktop window_pid window_class (i + 1) fuel

/-- The number of loop iterations `poll` actually executes before returning
or giving up (a successful iteration counts; unexecuted ones do not). -/
def polls_used (feed : Nat → Str) (desktop : Int)
    (window_pid : Option Int) (window_class : Option Str) : Nat → Nat → Nat
  | _, 0 => 0
  | i, fuel + 1 =>
    match lookup_window (get_window_info (feed i) desktop) window_pid window_class with
    | some s =>
      if s.isEmpty then 1 + polls_used feed desktop window_pid window_class (i + 1) fuel
      else 1
    | none => 1 + polls_used feed desktop window_pid window_class (i + 1) fuel

/-- The function `get_identifier(desktop, window_pid, window_class, timeout)` (switcher.py
lines 40-69): reject missing arguments, clamp the timeout, derive the
iteration count, and poll. -/
def get_identifier (feed : Nat → Str) (desktop : Int)
    (window_pid : Option Int) (window_class : Option Str) (timeout : ℚ) :
    Except LocateError Str :=
  if window_pid = none ∧ window_class = none then .error .badArguments
  else poll feed desktop window_pid window_class 0 (timeout_count timeout)

/-- The function `close_windows(windows)` (switcher.py lines 31-35): run
`wmctrl -c <id> -i` for each window in order.  The call passes
`check="True"`, a truthy value, so `subprocess.run` raises
`CalledProcessError` as soon as one close exits non-zero.  `closeOk id`
is the success of the close command on that id.  Returns the ids the loop
attempted (in order, including a failing one) and whether it completed
without raising. -/
def close_windows (closeOk : Str → Bool) : List WindowRecord → List Str × Bool
  | [] => ([], true)
  | w :: ws =>
    if closeOk w.id then
      let r := close_windows closeOk ws
      (w.id :: r.1, r.2)
    else ([w.id], false)

/-- The `wmctrl` invocations and the program launch `switch_desktop` can
issue, in order. -/
inductive Action
  | switchTo (desktop : Int)
  | closeWindow (id : Str)
  | launch (command_list : List Str)
  | fullscreen (id : Str)
  | activate (id : Str)
deriving DecidableEq, Repr

/-- The exceptions observable from `switch_desktop`: `ValueError` for a
missing config keyword (line 138), `TypeError` and `RuntimeError` from
`get_identifier`, `CalledProcessError` from a checked `wmctrl` call. -/
inductive PyError
  | valueError
  | typeError
  | runtimeError
  | calledProcessError
deriving DecidableEq, Repr

/-- The values `switch_desktop` extracts from its config section (switcher.py
lines 130-135): `command`, `class` and `desktop` may be absent (fallback
`None`); `fullscreen` and `activate` default to false, `timeout` to 1.0. -/
structure Profile where
  command : Option Str
  window_class : Option Str
  desktop : Option Int
  fullscreen : Bool
  activate : Bool
  timeout : ℚ
deriving DecidableEq

/-- The external world `switch_desktop` interacts with: the success of each
checked `wmctrl` invocation, the PID `Popen` assigns to the launched program,
the window listing captured by the pre-launch `get_windows` call, and the
listings captured during polling. -/
structure Ext where
  switchOk : Bool
  closeOk : Str → Bool
  fsOk : Bool
  actOk : Bool
  launchPid : Int
  listing : Str
  feed : Nat → Str

/-- The tail of `switch_desktop` (switcher.py lines 163-165): issue the
activate command when the profile asks for it; `check="True"` makes a failed
activation raise. -/
def activate_step (e : Ext) (p : Profile) (window_id : Str)
    (trace : List Action) : List Action × Option PyError :=
  if p.activate then
    (trace ++ [Action.activate window_id],
     if e.actOk then none else some PyError.calledProcessError)
  else (trace, none)

/-- The function `switch_desktop(parameters)` (switcher.py lines 128-167), as the list of
external actions issued and the exception that escapes, if any:
check the required config values; switch desktop (checked); scan the target
desktop's windows for the first one of the profile's class; if found, skip to
the activation step with that window's id; otherwise close all windows on the
desktop, launch the command, locate the new window by PID with class
fallback, optionally make it fullscreen (checked), then the activation
step. -/
def switch_desktop (e : Ext) (p : Profile) : List Action × Option PyError :=
  match p.command, p.window_class, p.desktop with
  | some command, some window_class, some desktop =>
    let trace0 := [Action.switchTo desktop]
    if !e.switchOk then (trace0, some PyError.calledProcessError) else
    let windows := get_windows e.listing desktop
    match windows.find? (fun w => decide (w.windowClass = window_class)) with
    | some w => activate_step e p w.id trace0
    | none =>
      let closed := close_windows e.closeOk windows
      let trace1 := trace0 ++ closed.1.map Action.closeWindow
      if !closed.2 then (trace1, some PyError.calledProcessError) else
      let trace2 := trace1 ++ [Action.launch (splitWS command)]
      match get_identifier e.feed desktop (some e.launchPid) (some window_class)
          p.timeout with
      | .error .badArguments => (trace2, some PyError.typeError)
      | .error .timeout => (trace2, some PyError.runtimeError)
      | .ok window_id =>
        let trace3 :=
          if p.fullscreen then trace2 ++ [Action.fullscreen window_id] else trace2
        if p.fullscreen && !e.fsOk then (trace3, some PyError.calledProcessError)
        else activate_step e p window_id trace3
  | _, _, _ => ([], some PyError.valueError)

/-! ### Concrete inputs used by the witnesses -/

/-- A two-line listing used as a concrete input by several witnesses. -/
def exOutput : Str := "0x1 2 100 Foo host hello\n0x2 3 200 Bar host".toList

/-- The record the parser produces from the first line of `exOutput`. -/
def exRecord : WindowRecord :=
  { id := "0x1".toList, desktop := 2, pid := 100, windowClass := "Foo".toList,
    hostname := "host".toList, title := "0x1".toList }

/-- A stale window whose close command fails, for the C2 counterexample. -/
def exStaleA : WindowRecord :=
  { id := "0x1".toList, desktop := 2, pid := 1, windowClass := "X".toList,
    hostname := "h".toList, title := "0x1".toList }

/-- A second stale window whose close would succeed, for the C2
counterexample. -/
def exStaleB : WindowRecord :=
  { id := "0x2".toList, desktop := 2, pid := 2, windowClass := "Y".toList,
    hostname := "h".toList, title := "0x2".toList }

/-- A second record with pid and class distinct from `exRecord`, for the C8
witness. -/
def exRecord2 : WindowRecord :=
  { id := "0x2".toList, desktop := 2, pid := 200, windowClass := "Bar".toList,
    hostname := "host".toList, title := "0x2".toList }

/-- A constant inventory feed in which pid 100 owns window 0x1, for the C4
witness. -/
def exFeed : Nat → Str := fun _ => "0x1 0 100 Foo host t".toList

/-- The always-empty inventory feed, for the C6 witness. -/
def emptyFeed : Nat → Str := fun _ => []

/-- External-world oracle for the C7 witness: every command succeeds, and the
pre-launch listing is `exOutput`, which already shows a window of class Foo
on desktop 2. -/
def exExt : Ext :=
  { switchOk := true, closeOk := fun _ => true, fsOk := true, actOk := true,
    launchPid := 77, listing := exOutput, feed := fun _ => exOutput }

/-! ### Basic facts about the tokenizer and the parser -/

/-- Every token produced by the whitespace splitter is non-empty. -/
lemma splitWSAux_mem_ne_nil :
    ∀ (cs acc : List Char) (t : List Char), t ∈ splitWSAux cs acc → t ≠ []
  | [], acc, t, ht => by
    unfold splitWSAux at ht
    by_cases h : acc = []
    · simp [h] at ht
    · simp only [h, if_false] at ht
      simp only [List.mem_singleton] at ht
      subst ht
      simpa using h
  | c :: cs, acc, t, ht => by
    unfold splitWSAux at ht
    by_cases hw : c.isWhitespace
    · rw [if_pos hw] at ht
      rcases List.mem_append.mp ht with h1 | h1
      · by_cases h : acc = []
        · simp [h] at h1
        · simp only [h, if_false, List.mem_singleton] at h1
          subst h1
          simpa using h
      · exact splitWSAux_mem_ne_nil cs [] t h1
    · rw [if_neg hw] at ht
      exact splitWSAux_mem_ne_nil cs (c :: acc) t ht

/-- Every token of `splitWS` is non-empty. -/
lemma splitWS_mem_ne_nil (cs : Str) (t : Str) (ht : t ∈ splitWS cs) : t ≠ [] :=
  splitWSAux_mem_ne_nil cs [] t ht

/-- Inversion for `parse_line`: a parsed record carries the window id in its
title slot, and its id is a non-empty token. -/
lemma parse_line_inv {l : Str} {w : WindowRecord} (h : parse_line l = some w) :
    w.title = w.id ∧ w.id ≠ [] := by
  unfold parse_line at h
  split at h
  case _ wid d p cls host _rest heq =>
    split at h
    case _ desktop pid _ _ =>
      cases h
      refine ⟨rfl, ?_⟩
      exact splitWS_mem_ne_nil _ _ (heq ▸ List.mem_cons_self _ _)
    case _ => exact absurd h (by simp)
  case _ => exact absurd h (by simp)

/-- Every record returned by `get_windows` sits on the requested desktop,
stores its id as its title, and has a non-empty id. -/
lemma get_windows_mem_spec {output : Str} {desktop : Int} {w : WindowRecord}
    (hw : w ∈ get_windows output desktop) :
    w.desktop = desktop ∧ w.title = w.id ∧ w.id ≠ [] := by
  unfold get_windows at hw
  have h1 := List.mem_filter.mp hw
  have h2 := List.mem_filterMap.mp h1.1
  rcases h2 with ⟨line, _, hparse⟩
  exact ⟨of_decide_eq_true h1.2, parse_line_inv hparse⟩

/-! ### Claims C9, C10, C1 about the inventory parser -/

/-- Claim C9: every window record returned by the desktop-filtered window
query has its desktop field equal to the requested desktop. -/
theorem C9_windows_on_desktop (output : Str) (desktop : Int) :
    ∀ w ∈ get_windows output desktop, w.desktop = desktop :=
  fun _ hw => (get_windows_mem_spec hw).1

/-- Witness for C9 at a concrete listing and desktop. -/
theorem C9_windows_on_desktop_witness :
    exRecord ∈ get_windows exOutput 2 ∧ exRecord.desktop = 2 :=
  ⟨by decide, C9_windows_on_desktop exOutput 2 exRecord (by decide)⟩

/-- Claim C10: every window record produced by the inventory parser stores
its id field in its title field (the joined remaining fields computed at
line 89 of the source are discarded by line 101). -/
theorem C10_title_is_id (output : Str) (desktop : Int) :
    ∀ w ∈ get_windows output desktop, w.title = w.id :=
  fun _ hw => (get_windows_mem_spec hw).2.1

/-- Witness for C10 at a concrete listing and desktop. -/
theorem C10_title_is_id_witness :
    exRecord ∈ get_windows exOutput 2 ∧ exRecord.title = exRecord.id :=
  ⟨by decide, C10_title_is_id exOutput 2 exRecord (by decide)⟩

/-- Claim C1, evaluated where it fails: on the syntactically valid line
`0x00a 0 1000 Foo.bar host My Title`, the parser produces one record whose
first five fields come from the line, but its title is the window id
`0x00a`, not the joined remaining fields `My Title` that line 89 of the
source computes and line 101 then drops. -/
theorem C1_title_code_bug_eval :
    get_windows "0x00a 0 1000 Foo.bar host My Title".toList 0
      = [{ id := "0x00a".toList, desktop := 0, pid := 1000,
           windowClass := "Foo.bar".toList, hostname := "host".toList,
           title := "0x00a".toList }]
    ∧ joined_title "0x00a 0 1000 Foo.bar host My Title".toList = "My Title".toList := by
  exact ⟨by decide, by decide⟩

/-! ### Claim C2 about stale-window cleanup -/

/-- Counterexample to claim C2: when the close of the first of two windows
fails, the loop attempts only that first close (the second window's close is
never attempted) and the failure escapes `close_windows` — because `run` is
called with `check="True"`, a truthy value, closing is not best-effort. -/
theorem C2_close_failure_aborts :
    close_windows (fun i => decide (i ≠ "0x1".toList)) [exStaleA, exStaleB]
      = (["0x1".toList], false) := by decide

/-- Claim C2, amended: stale-window closes are attempted in order only up to
and including the first failing window, and a failure propagates to the
caller (the loop completes exactly when every close succeeds). -/
theorem C2_close_windows_checked (closeOk : Str → Bool) (ws : List WindowRecord) :
    close_windows closeOk ws
      = ((ws.takeWhile (fun w => closeOk w.id)).map WindowRecord.id
          ++ (((ws.dropWhile (fun w => closeOk w.id)).head?).map WindowRecord.id).toList,
         ws.all (fun w => closeOk w.id)) := by
  induction ws with
  | nil => rfl
  | cons w ws ih =>
    by_cases h : closeOk w.id
    · simp [close_windows, h, List.takeWhile_cons, List.dropWhile_cons, ih]
    · simp [close_windows, h, List.takeWhile_cons, List.dropWhile_cons]

/-! ### Claim C3 about the timeout clamp -/

/-- Claim C3: the effective timeout is `min (max t 0.5) 60.0`; in particular
0 is clamped to 0.5, 1000 to 60.0, and 2 stays 2. -/
theorem C3_timeout_clamp :
    (∀ t : ℚ, clamp_timeout t = min (max t 0.5) 60.0)
    ∧ clamp_timeout 0 = 0.5 ∧ clamp_timeout 1000 = 60.0 ∧ clamp_timeout 2 = 2 := by
  refine ⟨fun t => ?_, by norm_num [clamp_timeout], by norm_num [clamp_timeout],
    by norm_num [clamp_timeout]⟩
  unfold clamp_timeout
  rcases lt_or_le t 0.5 with h | h
  · rw [if_pos h, max_eq_right h.le, min_eq_left (by norm_num)]
  · rw [if_neg (not_lt.mpr h), max_eq_left h]
    rcases le_or_lt t 60.0 with h2 | h2
    · rw [if_neg (not_lt.mpr h2), min_eq_left h2]
    · rw [if_pos h2, min_eq_right h2.le]

/-! ### Claim C8 about the index builder -/

/-- The function `List.find?` returns the head of the filtered list. -/
lemma find?_eq_head_filter {α : Type} (p : α → Bool) (l : List α) :
    l.find? p = (l.filter p).head? := by
  induction l with
  | nil => rfl
  | cons a l ih =>
    by_cases h : p a
    · rw [List.find?_cons_of_pos l h, List.filter_cons_of_pos h, List.head?_cons]
    · rw [List.find?_cons_of_neg l h, List.filter_cons_of_neg h, ih]

/-- A dict lookup returns the value of the last update with the given key. -/
lemma dget_eq_getLast {α β : Type} [DecidableEq α] (m : Dict α β) (k : α) :
    dget m k = ((m.filter (fun q => decide (q.1 = k))).getLast?).map Prod.snd := by
  unfold dget
  rw [find?_eq_head_filter, List.filter_reverse, List.head?_reverse]

/-- Unfolding the fold of `build_index` over an arbitrary accumulator. -/
lemma build_index_foldl (ws : List WindowRecord) (m1 : Dict Int Str) (m2 : Dict Str Str) :
    ws.foldl (fun acc w => (dset acc.1 w.pid w.id, dset acc.2 w.windowClass w.id)) (m1, m2)
      = (m1 ++ ws.map (fun w => (w.pid, w.id)),
         m2 ++ ws.map (fun w => (w.windowClass, w.id))) := by
  induction ws generalizing m1 m2 with
  | nil => simp
  | cons w ws ih =>
    rw [List.foldl_cons]
    show List.foldl _ (dset m1 w.pid w.id, dset m2 w.windowClass w.id) ws = _
    rw [ih]
    simp [dset]

/-- The dicts of `build_index` record, in inventory order, one pid binding and one class
binding per window. -/
lemma build_index_eq (ws : List WindowRecord) :
    build_index ws
      = (ws.map (fun w => (w.pid, w.id)), ws.map (fun w => (w.windowClass, w.id))) := by
  simpa [build_index] using build_index_foldl ws [] []

/-- Looking a pid up in the index yields the id of the last window of the
inventory with that pid. -/
lemma build_index_pid_lookup (ws : List WindowRecord) (p : Int) :
    dget (build_index ws).1 p
      = ((ws.filter (fun w => decide (w.pid = p))).getLast?).map WindowRecord.id := by
  rw [build_index_eq, dget_eq_getLast]
  rw [List.filter_map, List.getLast?_map, Option.map_map]
  rfl

/-- Looking a class up in the index yields the id of the last window of the
inventory with that class. -/
lemma build_index_class_lookup (ws : List WindowRecord) (c : Str) :
    dget (build_index ws).2 c
      = ((ws.filter (fun w => decide (w.windowClass = c))).getLast?).map WindowRecord.id := by
  rw [build_index_eq, dget_eq_getLast]
  rw [List.filter_map, List.getLast?_map, Option.map_map]
  rfl

/-- When the images under `f` of a list's elements are pairwise distinct,
filtering by agreement with a member's image leaves exactly that member. -/
lemma filter_eq_singleton_of_nodup_map {α β : Type} [DecidableEq β] (f : α → β) :
    ∀ (l : List α), (l.map f).Nodup → ∀ a : α, a ∈ l →
      l.filter (fun x => decide (f x = f a)) = [a]
  | [], _, a, ha => absurd ha (List.not_mem_nil a)
  | b :: l, h, a, ha => by
    rw [List.map_cons, List.nodup_cons] at h
    rcases List.mem_cons.mp ha with heq | ha2
    · subst heq
      have hnil : l.filter (fun x => decide (f x = f a)) = [] := by
        rw [List.filter_eq_nil_iff]
        intro x hx
        simp only [decide_eq_true_eq]
        intro hEq
        exact h.1 (hEq ▸ List.mem_map_of_mem f hx)
      rw [List.filter_cons_of_pos (by simp), hnil]
    · have hba : ¬ f b = f a := fun hEq =>
        h.1 (hEq ▸ List.mem_map_of_mem f ha2)
      rw [List.filter_cons_of_neg (by simpa using hba)]
      exact filter_eq_singleton_of_nodup_map f l h.2 a ha2

/-- Claim C8: the two index lookups are last-write-wins in inventory order,
and under pairwise distinct pids and classes, looking up a record's pid or
class returns exactly that record's id. -/
theorem C8_build_index_lookup (ws : List WindowRecord) :
    (∀ p : Int, dget (build_index ws).1 p
        = ((ws.filter (fun w => decide (w.pid = p))).getLast?).map WindowRecord.id)
    ∧ (∀ c : Str, dget (build_index ws).2 c
        = ((ws.filter (fun w => decide (w.windowClass = c))).getLast?).map WindowRecord.id)
    ∧ ((ws.map WindowRecord.pid).Nodup → (ws.map WindowRecord.windowClass).Nodup →
        ∀ w ∈ ws, dget (build_index ws).1 w.pid = some w.id
          ∧ dget (build_index ws).2 w.windowClass = some w.id) := by
  refine ⟨build_index_pid_lookup ws, build_index_class_lookup ws, ?_⟩
  intro hp hc w hw
  constructor
  · rw [build_index_pid_lookup,
      filter_eq_singleton_of_nodup_map WindowRecord.pid ws hp w hw]
    rfl
  · rw [build_index_class_lookup,
      filter_eq_singleton_of_nodup_map WindowRecord.windowClass ws hc w hw]
    rfl

/-- Witness for C8 on a concrete two-record inventory with distinct keys. -/
theorem C8_build_index_lookup_witness :
    ([exRecord, exRecord2].map WindowRecord.pid).Nodup
    ∧ ([exRecord, exRecord2].map WindowRecord.windowClass).Nodup
    ∧ (dget (build_index [exRecord, exRecord2]).1 exRecord.pid = some exRecord.id
        ∧ dget (build_index [exRecord, exRecord2]).2 exRecord.windowClass
          = some exRecord.id) :=
  ⟨by decide, by decide,
    (C8_build_index_lookup [exRecord, exRecord2]).2.2 (by decide) (by decide)
      exRecord (by decide)⟩

/-! ### Facts about the locator's lookups -/

/-- A successful dict lookup comes from a binding present in the dict. -/
lemma dget_mem {α β : Type} [DecidableEq α] {m : Dict α β} {k : α} {v : β}
    (h : dget m k = some v) : (k, v) ∈ m := by
  unfold dget at h
  rcases hf : m.reverse.find? (fun q => decide (q.1 = k)) with _ | q
  · rw [hf] at h; cases h
  · rw [hf] at h
    have hq' := List.find?_some hf
    simp only [decide_eq_true_eq] at hq'
    have hq : q.1 = k := hq'
    have hmem : q ∈ m := List.mem_reverse.mp (List.mem_of_find?_eq_some hf)
    obtain ⟨q1, q2⟩ := q
    cases h
    cases hq
    exact hmem

/-- Every id stored in the pid index of `get_window_info` is non-empty. -/
lemma get_window_info_pid_ne_nil {output : Str} {desktop : Int} {p : Int} {v : Str}
    (h : dget (get_window_info output desktop).1 p = some v) : v ≠ [] := by
  have hmem := dget_mem h
  rw [get_window_info, build_index_eq] at hmem
  rcases List.mem_map.mp hmem with ⟨w, hw, hEq⟩
  cases hEq
  exact (get_windows_mem_spec hw).2.2

/-- Every id stored in the class index of `get_window_info` is non-empty. -/
lemma get_window_info_class_ne_nil {output : Str} {desktop : Int} {c : Str} {v : Str}
    (h : dget (get_window_info output desktop).2 c = some v) : v ≠ [] := by
  have hmem := dget_mem h
  rw [get_window_info, build_index_eq] at hmem
  rcases List.mem_map.mp hmem with ⟨w, hw, hEq⟩
  cases hEq
  exact (get_windows_mem_spec hw).2.2

/-- Any id the per-iteration lookup returns over real inventory data is
non-empty (window ids are whitespace-split tokens). -/
lemma lookup_window_ne_nil {output : Str} {desktop : Int}
    {wp : Option Int} {wc : Option Str} {v : Str}
    (h : lookup_window (get_window_info output desktop) wp wc = some v) : v ≠ [] := by
  unfold lookup_window at h
  by_cases ht : truthy (wp.bind (fun p => dget (get_window_info output desktop).1 p))
  · rw [if_pos ht] at h
    rcases wp with _ | p
    · cases h
    · exact get_window_info_pid_ne_nil h
  · rw [if_neg ht] at h
    rcases wc with _ | c
    · cases h
    · exact get_window_info_class_ne_nil h

/-! ### The polling loop -/

/-- One-step unfolding of `poll`. -/
lemma poll_succ (feed : Nat → Str) (desktop : Int) (wp : Option Int)
    (wc : Option Str) (i fuel : Nat) :
    poll feed desktop wp wc i (fuel + 1)
      = match lookup_window (get_window_info (feed i) desktop) wp wc with
        | some s => if s.isEmpty then poll feed desktop wp wc (i + 1) fuel else .ok s
        | none => poll feed desktop wp wc (i + 1) fuel := rfl

/-- If no iteration in the window finds anything, `poll` times out. -/
lemma poll_eq_timeout (feed : Nat → Str) (desktop : Int) (wp : Option Int)
    (wc : Option Str) :
    ∀ (fuel i : Nat),
      (∀ j, i ≤ j → j < i + fuel →
        lookup_window (get_window_info (feed j) desktop) wp wc = none) →
      poll feed desktop wp wc i fuel = .error .timeout
  | 0, _, _ => rfl
  | fuel + 1, i, h => by
    rw [poll_succ, h i le_rfl (by omega)]
    exact poll_eq_timeout feed desktop wp wc fuel (i + 1)
      (fun j hj1 hj2 => h j (by omega) (by omega))

/-- If some iteration in the window finds a window, `poll` succeeds. -/
lemma poll_ok_of_found (feed : Nat → Str) (desktop : Int) (wp : Option Int)
    (wc : Option Str) :
    ∀ (fuel i : Nat),
      (∃ j, i ≤ j ∧ j < i + fuel ∧
        lookup_window (get_window_info (feed j) desktop) wp wc ≠ none) →
      ∃ s, poll feed desktop wp wc i fuel = .ok s
  | 0, i, h => absurd h (by rintro ⟨j, h1, h2, _⟩; omega)
  | fuel + 1, i, ⟨j, h1, h2, h3⟩ => by
    rcases hl : lookup_window (get_window_info (feed i) desktop) wp wc with _ | s
    · have hji : i + 1 ≤ j := by
        rcases Nat.eq_or_lt_of_le h1 with rfl | hlt
        · exact absurd hl h3
        · omega
      rw [poll_succ, hl]
      exact poll_ok_of_found feed desktop wp wc fuel (i + 1) ⟨j, hji, by omega, h3⟩
    · have hs : s ≠ [] := lookup_window_ne_nil hl
      refine ⟨s, ?_⟩
      rw [poll_succ, hl]
      rcases s with _ | ⟨c, cs⟩
      · exact absurd rfl hs
      · rfl

/-! ### Claim C4: the locator's outcomes -/

/-- Claim C4: `get_identifier` fails with `TypeError` exactly when neither a
window PID nor a window class is supplied (before any polling); given at
least one of them, it fails with the timeout `RuntimeError` when no polling
iteration within the clamped window finds a matching window, and returns a
window identifier when some iteration does. -/
theorem C4_get_identifier_outcomes (feed : Nat → Str) (desktop : Int)
    (window_pid : Option Int) (window_class : Option Str) (t : ℚ) :
    ((window_pid = none ∧ window_class = none) →
      get_identifier feed desktop window_pid window_class t = .error .badArguments)
    ∧ (¬(window_pid = none ∧ window_class = none) →
        (((∀ i, i < timeout_count t →
            lookup_window (get_window_info (feed i) desktop) window_pid window_class
              = none) →
          get_identifier feed desktop window_pid window_class t = .error .timeout)
        ∧ ((∃ i, i < timeout_count t ∧
            lookup_window (get_window_info (feed i) desktop) window_pid window_class
              ≠ none) →
          ∃ s, get_identifier feed desktop window_pid window_class t = .ok s))) := by
  constructor
  · intro h
    unfold get_identifier
    rw [if_pos h]
  · intro h
    constructor
    · intro hall
      unfold get_identifier
      rw [if_neg h]
      exact poll_eq_timeout feed desktop window_pid window_class (timeout_count t) 0
        (fun j _ hj2 => hall j (by omega))
    · rintro ⟨j, hj, hne⟩
      unfold get_identifier
      rw [if_neg h]
      exact poll_ok_of_found feed desktop window_pid window_class (timeout_count t) 0
        ⟨j, Nat.zero_le j, by omega, hne⟩

/-- Witness for C4: with a PID given and a matching window present from the
first iteration, the locator returns an identifier. -/
theorem C4_get_identifier_outcomes_witness :
    ¬((some 100 : Option Int) = none ∧ (none : Option Str) = none)
    ∧ (0 < timeout_count 1
        ∧ lookup_window (get_window_info (exFeed 0) 0) (some 100) none ≠ none)
    ∧ ∃ s, get_identifier exFeed 0 (some 100) none 1 = .ok s :=
  ⟨by decide, ⟨Nat.succ_pos _, by decide⟩,
    ((C4_get_identifier_outcomes exFeed 0 (some 100) none 1).2 (by decide)).2
      ⟨0, Nat.succ_pos _, by decide⟩⟩

/-! ### Claim C5: PID precedence in each iteration -/

/-- Claim C5: within one polling iteration, the PID lookup takes precedence:
a window found by PID is returned no matter what the class mapping holds,
and the class mapping determines the result only when the PID lookup finds
nothing. -/
theorem C5_pid_precedence (output : Str) (desktop : Int) (p : Int) (c : Str) :
    (∀ wid, dget (get_window_info output desktop).1 p = some wid →
      lookup_window (get_window_info output desktop) (some p) (some c) = some wid)
    ∧ (dget (get_window_info output desktop).1 p = none →
      lookup_window (get_window_info output desktop) (some p) (some c)
        = dget (get_window_info output desktop).2 c) := by
  constructor
  · intro wid h
    have hne : wid ≠ [] := get_window_info_pid_ne_nil h
    unfold lookup_window
    have hbind : (some p).bind (fun q => dget (get_window_info output desktop).1 q)
        = some wid := h
    rw [hbind]
    rw [if_pos]
    rcases wid with _ | ⟨ch, cs⟩
    · exact absurd rfl hne
    · rfl
  · intro h
    unfold lookup_window
    have hbind : (some p).bind (fun q => dget (get_window_info output desktop).1 q)
        = none := h
    rw [hbind]
    rfl

/-- Witness for C5: in `exOutput` restricted to desktop 2, pid 100 owns
window 0x1; the iteration lookup returns it even with a class argument
present. -/
theorem C5_pid_precedence_witness :
    dget (get_window_info exOutput 2).1 100 = some "0x1".toList
    ∧ lookup_window (get_window_info exOutput 2) (some 100) (some "Bar".toList)
        = some "0x1".toList :=
  ⟨by decide,
    (C5_pid_precedence exOutput 2 100 "Bar".toList).1 "0x1".toList (by decide)⟩

/-! ### Claim C6: the iteration count -/

/-- One-step unfolding of `polls_used`. -/
lemma polls_used_succ (feed : Nat → Str) (desktop : Int) (wp : Option Int)
    (wc : Option Str) (i fuel : Nat) :
    polls_used feed desktop wp wc i (fuel + 1)
      = match lookup_window (get_window_info (feed i) desktop) wp wc with
        | some s =>
          if s.isEmpty then 1 + polls_used feed desktop wp wc (i + 1) fuel else 1
        | none => 1 + polls_used feed desktop wp wc (i + 1) fuel := rfl

/-- When no iteration ever finds a window, the loop body runs once per unit
of fuel. -/
lemma polls_used_all_none (feed : Nat → Str) (desktop : Int) (wp : Option Int)
    (wc : Option Str)
    (hnone : ∀ i, lookup_window (get_window_info (feed i) desktop) wp wc = none) :
    ∀ (fuel i : Nat), polls_used feed desktop wp wc i fuel = fuel
  | 0, _ => rfl
  | fuel + 1, i => by
    rw [polls_used_succ, hnone i]
    show 1 + polls_used feed desktop wp wc (i + 1) fuel = fuel + 1
    rw [polls_used_all_none feed desktop wp wc hnone fuel (i + 1)]
    omega

/-- The clamped timeout is at least 0.5 seconds. -/
lemma clamp_timeout_ge (t : ℚ) : 0.5 ≤ clamp_timeout t := by
  unfold clamp_timeout
  split_ifs with h1 h2
  · norm_num
  · norm_num
  · exact not_lt.mp h1

/-- Characterization of the scaling search: on a positive input, the fuel
permitting, it returns the unique `k` that scales `q` into `[2^52, 2^53)`. -/
lemma scaleUp_spec : ∀ (fuel k : ℕ) (q : ℚ), 0 < q → k ≤ fuel →
    2 ^ 52 ≤ q * 2 ^ k → q * 2 ^ k < 2 ^ 53 → scaleUp fuel q = k
  | 0, k, _, _, hk, _, _ => by
    unfold scaleUp
    omega
  | fuel + 1, 0, q, _, _, h1, _ => by
    unfold scaleUp
    rw [if_pos (by simpa using h1)]
  | fuel + 1, k + 1, q, hq, hk, h1, h2 => by
    unfold scaleUp
    have hpow : (2 : ℚ) ≤ 2 ^ (k + 1) := by
      calc (2 : ℚ) = 2 ^ 1 := (pow_one 2).symm
      _ ≤ 2 ^ (k + 1) := by
        apply pow_le_pow_right₀ (by norm_num)
        omega
    have hqlt : ¬ (2 : ℚ) ^ 52 ≤ q := by
      intro hle
      have h3 : (2 : ℚ) ^ 52 * 2 ≤ q * 2 ^ (k + 1) :=
        mul_le_mul hle hpow (by norm_num) (le_trans (by norm_num) hle)
      have h4 : ((2 : ℚ) ^ 52) * 2 = 2 ^ 53 := by norm_num
      linarith
    rw [if_neg hqlt]
    have heq : (q * 2) * 2 ^ k = q * 2 ^ (k + 1) := by
      rw [pow_succ]
      ring
    rw [scaleUp_spec fuel k (q * 2) (by linarith) (by omega)
      (by rw [heq]; exact h1) (by rw [heq]; exact h2)]

/-- Round-to-nearest-even of a non-negative rational is non-negative. -/
lemma rne_nonneg {q : ℚ} (h : 0 ≤ q) : 0 ≤ rne q := by
  have hf : (0 : ℤ) ≤ ⌊q⌋ := Int.floor_nonneg.mpr h
  unfold rne
  split_ifs <;> omega

/-- Binary64 rounding of a positive rational is non-negative. -/
lemma roundPos_nonneg {q : ℚ} (h : 0 ≤ q) : 0 ≤ roundPos q := by
  unfold roundPos
  split_ifs
  · exact mul_nonneg (by exact_mod_cast rne_nonneg (by positivity)) (by positivity)
  · exact div_nonneg (by exact_mod_cast rne_nonneg (by positivity)) (by positivity)

/-- Binary64 rounding of a non-negative rational is non-negative. -/
lemma roundDouble_nonneg {q : ℚ} (h : 0 ≤ q) : 0 ≤ roundDouble q := by
  unfold roundDouble
  split_ifs with h1 h2
  · norm_num
  · exact absurd h2 (not_lt.mpr h)
  · exact roundPos_nonneg h

/-- The binary64 value of the configured timeout 0.57, as the program's
`getfloat` produces it: 5134103575202365 / 2^53, slightly below 57/100. -/
lemma roundDouble_057 : roundDouble ((57 : ℚ) / 100) = 5134103575202365 / 2 ^ 53 := by
  unfold roundDouble
  rw [if_neg (by norm_num), if_neg (by norm_num)]
  unfold roundPos
  rw [if_neg (by norm_num)]
  rw [scaleUp_spec 1200 53 _ (by norm_num) (by norm_num) (by norm_num) (by norm_num)]
  unfold rne
  rw [show ⌊(57 : ℚ) / 100 * 2 ^ 53⌋ = 5134103575202365 from by
      rw [Int.floor_eq_iff]
      norm_num,
    if_pos (by norm_num)]
  norm_num

/-- The binary64 value of the interval constant 0.01:
5764607523034235 / 2^59, slightly above 1/100. -/
lemma float0_01_eq : float0_01 = 5764607523034235 / 2 ^ 59 := by
  unfold float0_01 roundDouble
  rw [if_neg (by norm_num), if_neg (by norm_num)]
  unfold roundPos
  rw [if_neg (by norm_num)]
  rw [scaleUp_spec 1200 59 _ (by norm_num) (by norm_num) (by norm_num) (by norm_num)]
  unfold rne
  rw [show ⌊(1 : ℚ) / 100 * 2 ^ 59⌋ = 5764607523034234 from by
      rw [Int.floor_eq_iff]
      norm_num,
    if_neg (by norm_num), if_pos (by norm_num)]
  norm_num

/-- The correctly rounded binary64 quotient of double(0.57) by double(0.01):
just below 57, namely 8022036836253695 / 2^47 = 56.99999999999999…. -/
lemma fdiv_057_001 : fdiv ((5134103575202365 : ℚ) / 2 ^ 53)
    ((5764607523034235 : ℚ) / 2 ^ 59) = 8022036836253695 / 2 ^ 47 := by
  unfold fdiv
  rw [show (5134103575202365 : ℚ) / 2 ^ 53 / ((5764607523034235 : ℚ) / 2 ^ 59)
      = (65716525762590272 : ℚ) / 1152921504606847 from by norm_num]
  unfold roundDouble
  rw [if_neg (by norm_num), if_neg (by norm_num)]
  unfold roundPos
  rw [if_neg (by norm_num)]
  rw [scaleUp_spec 1200 47 _ (by norm_num) (by norm_num) (by norm_num) (by norm_num)]
  unfold rne
  rw [show ⌊(65716525762590272 : ℚ) / 1152921504606847 * 2 ^ 47⌋
      = 8022036836253695 from by
      rw [Int.floor_eq_iff]
      norm_num,
    if_pos (by norm_num)]
  norm_num

/-- At the configured timeout 0.57 the program computes 57 iterations:
double(0.57) passes the clamp unchanged, its double division by double(0.01)
yields 56.99999999999999…, and `int(...) + 1 = 57`. -/
lemma timeout_count_float057 :
    timeout_count (roundDouble ((57 : ℚ) / 100)) = 57 := by
  rw [roundDouble_057]
  unfold timeout_count
  rw [show clamp_timeout ((5134103575202365 : ℚ) / 2 ^ 53)
      = (5134103575202365 : ℚ) / 2 ^ 53 from by
      unfold clamp_timeout
      rw [if_neg (by norm_num), if_neg (by norm_num)]]
  rw [float0_01_eq, fdiv_057_001]
  unfold pyTrunc
  rw [if_neg (by norm_num)]
  rw [show ⌊(8022036836253695 : ℚ) / 2 ^ 47⌋ = 56 from by
      rw [Int.floor_eq_iff]
      norm_num]
  rfl

/-- Counterexample to claim C6: at the configured timeout 0.57 — whose
binary64 value is `roundDouble (57/100)` — the locator performs 57 polling
iterations before giving up, while the claim's formula
`⌊clampedTimeout / 0.01⌋ + 1` on the configured value yields 58: line 52
divides in doubles, and `0.57 / 0.01 = 56.99999999999999` there. -/
theorem C6_float_division_counterexample :
    polls_used emptyFeed 0 (some 100) none 0
        (timeout_count (roundDouble ((57 : ℚ) / 100))) = 57
    ∧ (⌊clamp_timeout ((57 : ℚ) / 100) / (1 / 100)⌋ + 1 : ℤ) = 58 := by
  constructor
  · rw [timeout_count_float057]
    exact polls_used_all_none emptyFeed 0 (some 100) none (fun _ => rfl) 57 0
  · rw [show clamp_timeout ((57 : ℚ) / 100) = (57 : ℚ) / 100 from by
      unfold clamp_timeout
      rw [if_neg (by norm_num), if_neg (by norm_num)]]
    rw [show ⌊(57 : ℚ) / 100 / (1 / 100)⌋ = 57 from by
      rw [Int.floor_eq_iff]
      norm_num]
    norm_num

/-- Claim C6, amended: with arguments present and a feed in which no
matching window ever appears, the locator gives up with the timeout error
after executing exactly `timeout_count` iterations, and that count is
`int(clampedTimeout / interval) + 1` computed in binary64 arithmetic —
`interval` being the double nearest 0.01 and the division correctly
rounded — which at some timeouts (e.g. a configured 0.57) is one less than
the exact `⌊clampedTimeout / 0.01⌋ + 1`. -/
theorem C6_iteration_count (feed : Nat → Str) (desktop : Int)
    (window_pid : Option Int) (window_class : Option Str) (t : ℚ)
    (hargs : ¬(window_pid = none ∧ window_class = none))
    (hnone : ∀ i,
      lookup_window (get_window_info (feed i) desktop) window_pid window_class
        = none) :
    get_identifier feed desktop window_pid window_class t = .error .timeout
    ∧ polls_used feed desktop window_pid window_class 0 (timeout_count t)
        = timeout_count t
    ∧ (timeout_count t : ℤ) = pyTrunc (fdiv (clamp_timeout t) float0_01) + 1 := by
  refine ⟨?_, polls_used_all_none feed desktop window_pid window_class hnone _ 0, ?_⟩
  · unfold get_identifier
    rw [if_neg hargs]
    exact poll_eq_timeout feed desktop window_pid window_class (timeout_count t) 0
      (fun j _ _ => hnone j)
  · have hq : (0 : ℚ) ≤ clamp_timeout t / float0_01 := by
      have h1 := clamp_timeout_ge t
      have h2 : (0 : ℚ) < float0_01 := by
        rw [float0_01_eq]
        positivity
      have h3 : (0 : ℚ) ≤ clamp_timeout t := le_trans (by norm_num) h1
      positivity
    have hrd : (0 : ℚ) ≤ roundDouble (clamp_timeout t / float0_01) :=
      roundDouble_nonneg hq
    have hfl : (0 : ℤ) ≤ pyTrunc (fdiv (clamp_timeout t) float0_01) := by
      unfold pyTrunc fdiv
      rw [if_neg (not_lt.mpr hrd)]
      exact Int.floor_nonneg.mpr hrd
    unfold timeout_count
    push_cast [Int.toNat_of_nonneg hfl]
    ring

/-- Witness for C6 at timeout 0 (clamped to 0.5) on a feed that never
reports any window. -/
theorem C6_iteration_count_witness :
    ¬((some 100 : Option Int) = none ∧ (none : Option Str) = none)
    ∧ (get_identifier emptyFeed 0 (some 100) none 0 = .error .timeout
        ∧ polls_used emptyFeed 0 (some 100) none 0 (timeout_count 0) = timeout_count 0
        ∧ (timeout_count 0 : ℤ) = pyTrunc (fdiv (clamp_timeout 0) float0_01) + 1) :=
  ⟨by decide,
    C6_iteration_count emptyFeed 0 (some 100) none 0 (by decide) (fun _ => rfl)⟩

/-! ### Claim C7: the orchestrator -/

/-- Unfolding of `switch_desktop` at a profile with all required values
present. -/
lemma switch_desktop_unfold (e : Ext) (c wc : Str) (d : Int)
    (f a : Bool) (t : ℚ) :
    switch_desktop e ⟨some c, some wc, some d, f, a, t⟩
      = (if !e.switchOk then ([Action.switchTo d], some PyError.calledProcessError)
         else
          match (get_windows e.listing d).find?
              (fun x => decide (x.windowClass = wc)) with
          | some w =>
            activate_step e ⟨some c, some wc, some d, f, a, t⟩ w.id
              [Action.switchTo d]
          | none =>
            let closed := close_windows e.closeOk (get_windows e.listing d)
            let trace1 := Action.switchTo d :: closed.1.map Action.closeWindow
            if !closed.2 then (trace1, some PyError.calledProcessError) else
            let trace2 := trace1 ++ [Action.launch (splitWS c)]
            match get_identifier e.feed d (some e.launchPid) (some wc) t with
            | .error .badArguments => (trace2, some PyError.typeError)
            | .error .timeout => (trace2, some PyError.runtimeError)
            | .ok window_id =>
              let trace3 :=
                if f then trace2 ++ [Action.fullscreen window_id] else trace2
              if f && !e.fsOk then (trace3, some PyError.calledProcessError)
              else activate_step e ⟨some c, some wc, some d, f, a, t⟩
                window_id trace3) := rfl

/-- Evaluation of `switch_desktop` when the desktop switch itself fails: only the switch
command was issued, and the failure escapes. -/
lemma switch_desktop_switch_failed (e : Ext) (c wc : Str) (d : Int)
    (f a : Bool) (t : ℚ) (hsw : e.switchOk = false) :
    switch_desktop e ⟨some c, some wc, some d, f, a, t⟩
      = ([Action.switchTo d], some PyError.calledProcessError) := by
  rw [switch_desktop_unfold, hsw]
  rfl

/-- Evaluation of `switch_desktop` when a window of the profile's class is already on the
target desktop: no close, no launch, no fullscreen; just the optional
activation of the found window. -/
lemma switch_desktop_running (e : Ext) (c wc : Str) (d : Int)
    (f a : Bool) (t : ℚ) (hsw : e.switchOk = true) {w : WindowRecord}
    (hf : (get_windows e.listing d).find? (fun x => decide (x.windowClass = wc))
      = some w) :
    switch_desktop e ⟨some c, some wc, some d, f, a, t⟩
      = if a then
          ([Action.switchTo d, Action.activate w.id],
           if e.actOk then none else some PyError.calledProcessError)
        else ([Action.switchTo d], none) := by
  rw [switch_desktop_unfold, hsw, hf]
  rfl

/-- Evaluation of `switch_desktop` when no window of the profile's class is on the target
desktop: close the desktop's windows, launch, locate, then the optional
fullscreen and activation steps. -/
lemma switch_desktop_fresh (e : Ext) (c wc : Str) (d : Int)
    (f a : Bool) (t : ℚ) (hsw : e.switchOk = true)
    (hf : (get_windows e.listing d).find? (fun x => decide (x.windowClass = wc))
      = none) :
    switch_desktop e ⟨some c, some wc, some d, f, a, t⟩
      = (let closed := close_windows e.closeOk (get_windows e.listing d)
         let trace1 := Action.switchTo d :: closed.1.map Action.closeWindow
         if !closed.2 then (trace1, some PyError.calledProcessError) else
         let trace2 := trace1 ++ [Action.launch (splitWS c)]
         match get_identifier e.feed d (some e.launchPid) (some wc) t with
         | .error .badArguments => (trace2, some PyError.typeError)
         | .error .timeout => (trace2, some PyError.runtimeError)
         | .ok window_id =>
           let trace3 :=
             if f then trace2 ++ [Action.fullscreen window_id] else trace2
           if f && !e.fsOk then (trace3, some PyError.calledProcessError)
           else if a then
             (trace3 ++ [Action.activate window_id],
              if e.actOk then none else some PyError.calledProcessError)
           else (trace3, none)) := by
  rw [switch_desktop_unfold, hsw, hf]
  rfl

/-- Claim C7: the fullscreen command is issued only after a fresh launch —
never when a window of the profile's class already existed on the target
desktop, even if the profile requests fullscreen — while on every successful
run the activate command is issued exactly when the profile requests
activation, on both the already-running and the fresh-launch path. -/
theorem C7_fullscreen_only_after_launch (e : Ext) (command window_class : Str)
    (desktop : Int) (fullscreen activate : Bool) (timeout : ℚ) :
    ((∃ w ∈ get_windows e.listing desktop, w.windowClass = window_class) →
      ∀ wid, Action.fullscreen wid ∉
        (switch_desktop e
          ⟨some command, some window_class, some desktop,
           fullscreen, activate, timeout⟩).1)
    ∧ (∀ wid, Action.fullscreen wid ∈
        (switch_desktop e
          ⟨some command, some window_class, some desktop,
           fullscreen, activate, timeout⟩).1 →
        fullscreen = true ∧ Action.launch (splitWS command) ∈
          (switch_desktop e
            ⟨some command, some window_class, some desktop,
             fullscreen, activate, timeout⟩).1)
    ∧ ((switch_desktop e
          ⟨some command, some window_class, some desktop,
           fullscreen, activate, timeout⟩).2 = none →
        ((∃ wid, Action.activate wid ∈
          (switch_desktop e
            ⟨some command, some window_class, some desktop,
             fullscreen, activate, timeout⟩).1) ↔ activate = true)) := by
  by_cases hsw : e.switchOk
  · rcases hf : (get_windows e.listing desktop).find?
        (fun x => decide (x.windowClass = window_class)) with _ | w
    · -- fresh-launch path
      rw [switch_desktop_fresh e command window_class desktop fullscreen activate
        timeout hsw hf]
      have hnone : ¬∃ w ∈ get_windows e.listing desktop,
          w.windowClass = window_class := by
        rw [List.find?_eq_none] at hf
        rintro ⟨w0, hw0, hc0⟩
        exact hf w0 hw0 (by simpa using hc0)
      refine ⟨fun hex => absurd hex hnone, ?_, ?_⟩
      · intro wid
        rcases hcl : (close_windows e.closeOk (get_windows e.listing desktop)).2 with _ | _
        · simp [hcl]
        · rcases hloc : get_identifier e.feed desktop (some e.launchPid)
              (some window_class) timeout with err | wid2
          · rcases err <;> simp [hcl, hloc]
          · rcases fullscreen with _ | _
            · rcases activate with _ | _ <;> simp [hcl, hloc]
            · rcases hfs : e.fsOk with _ | _ <;> rcases activate with _ | _ <;>
                simp [hcl, hloc, hfs]
      · rcases hcl : (close_windows e.closeOk (get_windows e.listing desktop)).2 with _ | _
        · simp [hcl]
        · rcases hloc : get_identifier e.feed desktop (some e.launchPid)
              (some window_class) timeout with err | wid2
          · rcases err <;> simp [hcl, hloc]
          · rcases fullscreen with _ | _ <;> rcases hfs : e.fsOk with _ | _ <;>
              rcases activate with _ | _ <;> simp [hcl, hloc, hfs]
    · -- already-running path
      rw [switch_desktop_running e command window_class desktop fullscreen activate
        timeout hsw hf]
      rcases activate with _ | _
      · simp
      · simp
  · rw [switch_desktop_switch_failed e command window_class desktop fullscreen
      activate timeout (by simpa using hsw)]
    simp

/-- Witness for C7: with a window of class Foo already on desktop 2 and a
profile requesting fullscreen, no fullscreen command is issued. -/
theorem C7_fullscreen_only_after_launch_witness :
    (∃ w ∈ get_windows exExt.listing 2, w.windowClass = "Foo".toList)
    ∧ Action.fullscreen "0x1".toList ∉
        (switch_desktop exExt
          ⟨some "prog arg".toList, some "Foo".toList, some 2, true, true, 1⟩).1 :=
  ⟨⟨exRecord, by decide, by decide⟩,
    (C7_fullscreen_only_after_launch exExt "prog arg".toList "Foo".toList 2
      true true 1).1 ⟨exRecord, by decide, by decide⟩ "0x1".toList⟩

end Switcher
